import Mathlib

/-!
Shallow embedding of the core logic of the Blade repository (src/App.tsx and
src/services/gemini.ts): motion estimation, blade-trail construction, physics
integration, swept collision detection, and the score/combo/lives state
machine.  JavaScript numbers are idealised as rationals; the one place where
JavaScript NaN semantics is observable (division by a zero squared length in
`checkCollision`) is modelled explicitly with `Option ℚ`, `none` standing for
NaN.
-/

namespace Blade

/-! ## Constants (src/App.tsx lines 8-17) -/

def MOTION_THRESHOLD : ℤ := 35
def MIN_MOVEMENT_PIXELS : ℕ := 45
def DOWNSAMPLE_FACTOR : ℚ := 8
def MOTION_SENSITIVITY : ℚ := 5/2
def GRAVITY : ℚ := 1/4
def SPAWN_RATE : ℚ := 900

/-! ## JavaScript-number arithmetic with NaN

`checkCollision` divides by the segment's squared length.  When that length is
zero, the dividend is also zero (in exact arithmetic `lenSq = dx² + dy² = 0`
forces `dx = dy = 0` and hence a zero dot product), so JavaScript produces
`0/0 = NaN`; the NaN then propagates through `Math.min`, `Math.max`, `+`, `*`
and makes the final `<` comparison false.  We model a JavaScript number as
`Option ℚ` with `none` for NaN. -/

abbrev JSNum := Option ℚ

/-- Inject an exact rational into a JavaScript number. -/
def jn (q : ℚ) : JSNum := some q

def jadd : JSNum → JSNum → JSNum
  | some a, some b => some (a + b)
  | _, _ => none

def jsub : JSNum → JSNum → JSNum
  | some a, some b => some (a - b)
  | _, _ => none

def jmul : JSNum → JSNum → JSNum
  | some a, some b => some (a * b)
  | _, _ => none

/-- JavaScript division.  A zero divisor yields NaN here; in JavaScript a zero
divisor with a nonzero dividend would yield ±Infinity instead, but the only
division in this program (`checkCollision`) has a dividend that is forced to
zero whenever the divisor is, so NaN is the faithful result. -/
def jdiv : JSNum → JSNum → JSNum
  | some a, some b => if b = 0 then none else some (a / b)
  | _, _ => none

/-- `Math.min` returns NaN when either argument is NaN. -/
def jmin : JSNum → JSNum → JSNum
  | some a, some b => some (min a b)
  | _, _ => none

/-- `Math.max` returns NaN when either argument is NaN. -/
def jmax : JSNum → JSNum → JSNum
  | some a, some b => some (max a b)
  | _, _ => none

/-- JavaScript `<`: every comparison with NaN is false. -/
def jlt : JSNum → JSNum → Bool
  | some a, some b => decide (a < b)
  | _, _ => false

/-! ## Data model (src/types, as used by src/App.tsx) -/

structure TrailPoint where
  x : ℚ
  y : ℚ
  life : ℚ
  deriving Repr, DecidableEq

structure GameObject where
  id : String
  text : String
  x : ℚ
  y : ℚ
  vx : ℚ
  vy : ℚ
  rotation : ℚ
  vRotation : ℚ
  isTarget : Bool
  radius : ℚ
  sliced : Bool
  color : String
  deriving Repr, DecidableEq

structure Particle where
  x : ℚ
  y : ℚ
  vx : ℚ
  vy : ℚ
  life : ℚ
  color : String
  size : ℚ
  deriving Repr, DecidableEq

structure LevelData where
  themeName : String
  instruction : String
  targets : List String
  distractors : List String
  deriving Repr, DecidableEq

/-! ## Collision Engine (src/App.tsx lines 215-225)

```
const checkCollision = (p1, p2, obj) => {
  const dx = p2.x - p1.x;
  const dy = p2.y - p1.y;
  const lenSq = dx * dx + dy * dy;
  let t = ((obj.x - p1.x) * dx + (obj.y - p1.y) * dy) / lenSq;
  t = Math.max(0, Math.min(1, t));
  const closestX = p1.x + t * dx;
  const closestY = p1.y + t * dy;
  const distSq = (obj.x - closestX) ** 2 + (obj.y - closestY) ** 2;
  return distSq < obj.radius * obj.radius;
};
```
Everything before the division is exact; from the division on the value may be
NaN, so those steps are computed in `JSNum`.  `** 2` is modelled as
self-multiplication. -/

def checkCollision (p1 p2 : TrailPoint) (obj : GameObject) : Bool :=
  let dx := p2.x - p1.x
  let dy := p2.y - p1.y
  let lenSq := dx * dx + dy * dy
  let t := jmax (jn 0) (jmin (jn 1)
    (jdiv (jn ((obj.x - p1.x) * dx + (obj.y - p1.y) * dy)) (jn lenSq)))
  let closestX := jadd (jn p1.x) (jmul t (jn dx))
  let closestY := jadd (jn p1.y) (jmul t (jn dy))
  let distSq := jadd (jmul (jsub (jn obj.x) closestX) (jsub (jn obj.x) closestX))
                     (jmul (jsub (jn obj.y) closestY) (jsub (jn obj.y) closestY))
  jlt distSq (jn (obj.radius * obj.radius))

/-- The mathematical segment/circle test the specification describes: clamp the
projection parameter to [0,1], take the closest point on the finite segment and
compare the squared distance with the squared radius. -/
def specSegmentHit (p1 p2 : TrailPoint) (obj : GameObject) : Prop :=
  let dx := p2.x - p1.x
  let dy := p2.y - p1.y
  let t := max 0 (min 1 (((obj.x - p1.x) * dx + (obj.y - p1.y) * dy) / (dx * dx + dy * dy)))
  (obj.x - (p1.x + t * dx)) ^ 2 + (obj.y - (p1.y + t * dy)) ^ 2 < obj.radius * obj.radius

instance (p1 p2 : TrailPoint) (obj : GameObject) : Decidable (specSegmentHit p1 p2 obj) := by
  unfold specSegmentHit
  exact inferInstance

/-! ## Motion Estimator (src/App.tsx lines 127-191)

A downsampled frame is a row-major list of RGB pixels of width `w`; the
JavaScript loop walks the flat RGBA array four bytes at a time, so the pixel
index is `i / 4`, its grid coordinates `index % w` and `index / w`. -/

structure Pixel where
  r : ℤ
  g : ℤ
  b : ℤ
  deriving Repr, DecidableEq

/-- One iteration of the scan loop: the pixel qualifies when the summed
absolute per-channel differences strictly exceed `MOTION_THRESHOLD * 3`. -/
def pixelQualifies (c p : Pixel) : Bool :=
  decide (|c.r - p.r| + |c.g - p.g| + |c.b - p.b| > MOTION_THRESHOLD * 3)

/-- Accumulate `(sumX, sumY, count)` over the paired current/previous pixels,
starting at pixel index `i` (the source initialises all three to 0 and walks
the frame forward; addition order is immaterial for the sums). -/
def scanPixels (w : ℕ) : List (Pixel × Pixel) → ℕ → ℕ × ℕ × ℕ
  | [], _ => (0, 0, 0)
  | (c, p) :: rest, i =>
      let acc := scanPixels w rest (i + 1)
      if pixelQualifies c p then (acc.1 + i % w, acc.2.1 + i / w, acc.2.2 + 1) else acc

/-- `detectMotion` on a current and a previous frame (the degenerate-video and
first-frame early returns concern the stateful wrapper; this is the per-pair
computation of lines 152-190).  Returns the amplified, clamped full-resolution
estimate, or `none` when the qualifying-pixel count does not exceed
`MIN_MOVEMENT_PIXELS`. -/
def detectMotion (w : ℕ) (frameData prevData : List Pixel) : Option (ℚ × ℚ) :=
  let acc := scanPixels w (frameData.zip prevData) 0
  let sumX := acc.1
  let sumY := acc.2.1
  let count := acc.2.2
  if count > MIN_MOVEMENT_PIXELS then
    let rawX := ((sumX : ℚ) / (count : ℚ)) * DOWNSAMPLE_FACTOR
    let rawY := ((sumY : ℚ) / (count : ℚ)) * DOWNSAMPLE_FACTOR
    let centerX : ℚ := 640 / 2
    let centerY : ℚ := 480 / 2
    let amplifiedX := centerX + (rawX - centerX) * MOTION_SENSITIVITY
    let amplifiedY := centerY + (rawY - centerY) * MOTION_SENSITIVITY
    some (max 0 (min 640 amplifiedX), max 0 (min 480 amplifiedY))
  else none

/-! ## Trail Builder (src/App.tsx lines 320-346)

On a motion tick the loop lerps the sword position half-way toward the sample,
unshifts a fresh point with `life = 1.0`, then decrements every point's life by
0.12 and filters out points with `life ≤ 0`.  On a no-motion tick only the
decay and filter run. -/

/-- The decay-and-filter step (lines 345-346), applied every tick. -/
def trailDecay (trail : List TrailPoint) : List TrailPoint :=
  (trail.map (fun p => { p with life := p.life - 12/100 })).filter (fun p => p.life > 0)

/-- One tick of the Trail Builder.  `sample` is the motion estimate for the
tick; `cursor` is the persistent sword position. -/
def trailTick (sample : Option (ℚ × ℚ)) (cursor : ℚ × ℚ) (trail : List TrailPoint) :
    (ℚ × ℚ) × List TrailPoint :=
  match sample with
  | some (mx, my) =>
      let cx := cursor.1 + (mx - cursor.1) * (1/2)
      let cy := cursor.2 + (my - cursor.2) * (1/2)
      ((cx, cy), trailDecay ({ x := cx, y := cy, life := 1 } :: trail))
  | none => (cursor, trailDecay trail)

/-- The trail after `n` continuous-motion ticks from the start of a
playthrough (`trailRef.current = []`, sword at the centre), with an arbitrary
stream of motion samples `pos`. -/
def trailRun (pos : ℕ → ℚ × ℚ) : ℕ → (ℚ × ℚ) × List TrailPoint
  | 0 => ((320, 240), [])
  | n + 1 =>
      let s := trailRun pos n
      trailTick (some (pos n)) s.1 s.2

/-! ## Physics Integrator (src/App.tsx lines 348-360) -/

/-- Per-tick particle update (lines 348-353): the inline gravity constant is
0.15 and the life decay 0.03. -/
def particleStep (p : Particle) : Particle :=
  { p with x := p.x + p.vx, y := p.y + p.vy, vy := p.vy + 15/100, life := p.life - 3/100 }

/-- Per-tick object physics update (lines 356-360). -/
def physicsStep (obj : GameObject) : GameObject :=
  { obj with
    x := obj.x + obj.vx
    y := obj.y + obj.vy
    vy := obj.vy + GRAVITY
    rotation := obj.rotation + obj.vRotation }

/-! ## Per-tick collision pass (src/App.tsx lines 362-390)

```
if (!obj.sliced && trailRef.current.length > 2) {
  for (let i = 0; i < Math.min(5, trailRef.current.length - 1); i++) {
     if (checkCollision(trailRef.current[i], trailRef.current[i+1], obj)) {
        obj.sliced = true; ...; break;
     }
  }
}
```
The loop with its `break` is rendered as a fuel-indexed recursion over adjacent
pairs: testing segment `i` uses points `i` and `i+1`, the fuel `5` bounds `i`,
and a hit returns at once (the `break`), reporting one slice event. -/

/-- The inner segment loop on one object: returns the updated object and the
number of slice events fired (0 or 1 by construction of the `break`). -/
def segmentLoop (obj : GameObject) : ℕ → List TrailPoint → GameObject × ℕ
  | 0, _ => (obj, 0)
  | _, [] => (obj, 0)
  | _, [_] => (obj, 0)
  | fuel + 1, p1 :: p2 :: rest =>
      if checkCollision p1 p2 obj then ({ obj with sliced := true }, 1)
      else segmentLoop obj fuel (p2 :: rest)

/-- The guarded collision pass for one object on one tick (the
`!obj.sliced && trail.length > 2` guard). -/
def collidePass (trail : List TrailPoint) (obj : GameObject) : GameObject × ℕ :=
  if !obj.sliced && decide (trail.length > 2) then segmentLoop obj 5 trail
  else (obj, 0)

/-- One full tick as seen by a single object: physics step (lines 357-360)
followed by the collision pass (lines 362-385). -/
def objectTick (trail : List TrailPoint) (obj : GameObject) : GameObject × ℕ :=
  collidePass trail (physicsStep obj)

/-- Run an object through a sequence of ticks, one trail snapshot per tick,
accumulating the total number of slice events fired for it. -/
def objectRun : List (List TrailPoint) → GameObject → GameObject × ℕ
  | [], obj => (obj, 0)
  | trail :: rest, obj =>
      let s := objectTick trail obj
      let r := objectRun rest s.1
      (r.1, s.2 + r.2)

/-! ## Game State Machine (src/App.tsx lines 97-107 and 362-390) -/

inductive GamePhase where
  | menu
  | loadingLevel
  | playing
  | gameOver
  | error
  deriving Repr, DecidableEq

/-- Round state owned by the state machine.  `comboTimerPending` records
whether a combo-reset `setTimeout` is currently scheduled
(`comboTimerRef`). -/
structure RoundState where
  score : ℤ
  combo : ℤ
  lives : ℤ
  phase : GamePhase
  comboTimerPending : Bool
  deriving Repr, DecidableEq

/-- `incrementCombo` (lines 97-107): bump the combo and restart the debounce
timer (`clearTimeout` of any pending timer, then a fresh `setTimeout`). -/
def incrementCombo (s : RoundState) : RoundState :=
  { s with combo := s.combo + 1, comboTimerPending := true }

/-- The debounce timer firing (lines 103-106): combo resets to 0; the timer is
no longer pending. -/
def comboTimerFire (s : RoundState) : RoundState :=
  { s with combo := 0, comboTimerPending := false }

/-- Target-hit slice handling (lines 369-373): `score += 10 + combo * 2` with
the pre-hit combo, then `incrementCombo`. -/
def applyTargetHit (s : RoundState) : RoundState :=
  incrementCombo { s with score := s.score + (10 + s.combo * 2) }

/-- Distractor-hit slice handling (lines 374-381): `lives -= 1`, combo set to
0, and `GAME_OVER` once `lives <= 0`.  Note: these lines do not touch
`comboTimerRef`, so a pending debounce timer stays scheduled. -/
def applyDistractorHit (s : RoundState) : RoundState :=
  let lives := s.lives - 1
  { s with
    lives := lives
    combo := 0
    phase := if lives ≤ 0 then GamePhase.gameOver else s.phase }

/-- Dispatch of one slice event by the polarity of the sliced object. -/
def applySliceEvent (isTarget : Bool) (s : RoundState) : RoundState :=
  if isTarget then applyTargetHit s else applyDistractorHit s

/-! ## Startup sequence (src/App.tsx lines 473-521, src/services/gemini.ts)

`generateLevel` reads `response.text` from the content service; an absent or
empty text throws, otherwise the text is JSON-parsed.  Any error thrown by the
service call is logged and rethrown.  We model the awaited service call as an
`Except String (Option String)` (exception, or the possibly-absent text) and
`JSON.parse` as a parameter `parse`, `none` meaning a parse exception. -/

def generateLevel (serviceResult : Except String (Option String))
    (parse : String → Option LevelData) : Except String LevelData :=
  match serviceResult with
  | Except.error e => Except.error e
  | Except.ok none => Except.error "No response from Sensei"
  | Except.ok (some text) =>
      match parse text with
      | none => Except.error "JSON.parse failed"
      | some level => Except.ok level

/-- `startCamera` (lines 473-499): on acquisition failure it catches locally,
sets the error message and moves to `ERROR`; it never rethrows.  Result: the
phases it enters and the message it sets. -/
def startCamera (cameraOk : Bool) : List GamePhase × Option String :=
  if cameraOk then ([], none) else ([GamePhase.error], some "Camera access required.")

/-- Outcome of one `initializeGame` attempt: every phase entered via
`setGameState`, in order, and the final error message. -/
structure InitOutcome where
  phases : List GamePhase
  errorMsg : Option String
  deriving Repr, DecidableEq

/-- `initializeGame` (lines 501-521): enter `LOADING_LEVEL`, acquire the
camera when permission is not yet granted (its failure does not abort, as
`startCamera` swallows it), then await the level; on success reset the round
and enter `PLAYING`, on any thrown error set the content message and enter
`ERROR`. -/
def initializeGame (permissionGranted cameraOk : Bool)
    (serviceResult : Except String (Option String))
    (parse : String → Option LevelData) : InitOutcome :=
  let cam := if permissionGranted then ([], none) else startCamera cameraOk
  match generateLevel serviceResult parse with
  | Except.ok _ =>
      { phases := GamePhase.loadingLevel :: cam.1 ++ [GamePhase.playing]
        errorMsg := cam.2 }
  | Except.error _ =>
      { phases := GamePhase.loadingLevel :: cam.1 ++ [GamePhase.error]
        errorMsg := some "AI Dojo disconnected." }

/-! ## Concrete values used in scenario checks -/

def segP1 : TrailPoint := { x := 0, y := 100, life := 1 }

def segP2 : TrailPoint := { x := 200, y := 100, life := 1 }

def objHit : GameObject :=
  { id := "a1", text := "apple", x := 100, y := 100, vx := 0, vy := 0, rotation := 0,
    vRotation := 0, isTarget := true, radius := 50, sliced := false, color := "#34d399" }

def objMiss : GameObject := { objHit with y := 300 }

def objSliced : GameObject := { objHit with sliced := true }

def roundC2 : RoundState :=
  { score := 100, combo := 3, lives := 3, phase := GamePhase.playing, comboTimerPending := true }

def roundC3 : RoundState :=
  { score := 20, combo := 2, lives := 2, phase := GamePhase.playing, comboTimerPending := true }

def roundC3one : RoundState := { roundC3 with lives := 1 }

def particleEx : Particle :=
  { x := 0, y := 0, vx := 1, vy := 2, life := 1, color := "#34d399", size := 3 }

/-! # Theorems -/

/-- Claim C2: for every target-hit slice event during Playing, the score
increases by exactly `10 + 2 × c` where `c` is the combo count immediately
before the hit, and the combo count then increases by 1. -/
theorem targetHit_score_and_combo :
    (∀ s : RoundState, s.phase = GamePhase.playing →
      (applyTargetHit s).score = s.score + (10 + 2 * s.combo) ∧
      (applyTargetHit s).combo = s.combo + 1) ∧
    ((applyTargetHit roundC2).score = roundC2.score + 16 ∧
      (applyTargetHit roundC2).combo = 4) := by
  refine ⟨fun s _ => ⟨?_, ?_⟩, by decide⟩
  · simp [applyTargetHit, incrementCombo]; ring
  · simp [applyTargetHit, incrementCombo]

/-- Witness for C2: the target-hit accounting at a concrete Playing state with
combo 3. -/
theorem targetHit_score_and_combo_witness :
    roundC2.phase = GamePhase.playing ∧
    ((applyTargetHit roundC2).score = roundC2.score + (10 + 2 * roundC2.combo) ∧
      (applyTargetHit roundC2).combo = roundC2.combo + 1) :=
  ⟨rfl, targetHit_score_and_combo.1 roundC2 rfl⟩

/-- Claim C3, counterexample: the claim says a distractor hit cancels the
pending combo-reset debounce timer, but lines 374-381 of src/App.tsx never
touch `comboTimerRef`; at a Playing state with a pending timer the timer is
still pending after the hit. -/
theorem distractorHit_timer_not_cancelled :
    roundC3.comboTimerPending = true ∧
    ¬ (applyDistractorHit roundC3).comboTimerPending = false := by
  decide

/-- Claim C3 (amended): for every distractor-hit slice event during Playing,
lives decreases by exactly 1 and the combo count resets to 0 immediately, but
the pending combo-reset debounce timer is left scheduled (not cancelled; on
expiry it merely re-sets the already-reset combo to 0); if lives reaches 0 the
state machine transitions to GameOver; in particular with lives=1 a distractor
hit leaves lives=0 and the state becomes GameOver. -/
theorem distractorHit_behaviour :
    (∀ s : RoundState, s.phase = GamePhase.playing →
      (applyDistractorHit s).lives = s.lives - 1 ∧
      (applyDistractorHit s).combo = 0 ∧
      (applyDistractorHit s).comboTimerPending = s.comboTimerPending ∧
      (s.lives = 1 → (applyDistractorHit s).phase = GamePhase.gameOver)) ∧
    ((applyDistractorHit roundC3one).lives = 0 ∧
      (applyDistractorHit roundC3one).phase = GamePhase.gameOver) := by
  refine ⟨fun s _ => ⟨?_, ?_, ?_, ?_⟩, by decide⟩
  · simp [applyDistractorHit]
  · simp [applyDistractorHit]
  · simp [applyDistractorHit]
  · intro h1
    simp [applyDistractorHit, h1]

/-- Witness for C3 (amended): the distractor-hit accounting at a concrete
Playing state. -/
theorem distractorHit_behaviour_witness :
    roundC3.phase = GamePhase.playing ∧
    ((applyDistractorHit roundC3).lives = roundC3.lives - 1 ∧
      (applyDistractorHit roundC3).combo = 0 ∧
      (applyDistractorHit roundC3).comboTimerPending = roundC3.comboTimerPending ∧
      (roundC3.lives = 1 → (applyDistractorHit roundC3).phase = GamePhase.gameOver)) :=
  ⟨rfl, distractorHit_behaviour.1 roundC3 rfl⟩

/-- Claim C8, counterexample: the claim says the per-tick gravity constant
added to a particle's vertical velocity is larger than the one added to a game
object's vertical velocity; in the code the particle constant is 0.15
(line 351) and the object constant is `GRAVITY = 0.25` (line 359), so at any
concrete particle and object the particle increment is NOT larger. -/
theorem particle_gravity_not_larger :
    ¬ ((particleStep particleEx).vy - particleEx.vy >
        (physicsStep objHit).vy - objHit.vy) := by
  norm_num [particleStep, physicsStep, particleEx, objHit, GRAVITY]

/-- Claim C8 (amended): the per-tick gravity constant the Physics Integrator
adds to every particle's vertical velocity (0.15) is SMALLER than the gravity
constant it adds to every game object's vertical velocity (`GRAVITY` =
0.25). -/
theorem particle_gravity_smaller :
    ∀ (p : Particle) (obj : GameObject),
      (particleStep p).vy - p.vy = 15/100 ∧
      (physicsStep obj).vy - obj.vy = GRAVITY ∧
      (particleStep p).vy - p.vy < (physicsStep obj).vy - obj.vy := by
  intro p obj
  refine ⟨by simp [particleStep], by simp [physicsStep], ?_⟩
  simp [particleStep, physicsStep, GRAVITY]
  norm_num

/-- Claim C10: for every game object and every degenerate trail segment whose
two endpoints are identical, the collision test reports no hit — even when the
object's center coincides with the shared endpoint — because the projection
parameter is `0/0 = NaN`, which propagates and makes the final comparison
false. -/
theorem checkCollision_degenerate_no_hit :
    ∀ (p1 p2 : TrailPoint) (obj : GameObject),
      p1.x = p2.x → p1.y = p2.y → checkCollision p1 p2 obj = false := by
  intro p1 p2 obj hx hy
  simp [checkCollision, ← hx, ← hy, jn, jdiv, jmin, jmax, jmul, jadd, jsub, jlt]

/-- Witness for C10: an object whose centre coincides with the degenerate
segment's shared endpoint (distance 0, well inside the radius) is still not
hit. -/
theorem checkCollision_degenerate_no_hit_witness :
    segP1.x = segP1.x ∧ segP1.y = segP1.y ∧
    checkCollision segP1 segP1 { objHit with x := segP1.x, y := segP1.y } = false :=
  ⟨rfl, rfl, checkCollision_degenerate_no_hit segP1 segP1 _ rfl rfl⟩

/-! ### Motion estimator lemmas -/

/-- A pixel never qualifies against itself: all per-channel differences are
zero. -/
theorem pixelQualifies_self (p : Pixel) : pixelQualifies p p = false := by
  simp [pixelQualifies, MOTION_THRESHOLD]

/-- Scanning a frame against itself accumulates nothing. -/
theorem scanPixels_self (w : ℕ) : ∀ (l : List Pixel) (i : ℕ),
    scanPixels w (l.zip l) i = (0, 0, 0)
  | [], _ => rfl
  | p :: rest, i => by
      simp only [List.zip_cons_cons, scanPixels, pixelQualifies_self, Bool.false_eq_true,
        if_false, ite_false]
      exact scanPixels_self w rest (i + 1)

/-- Claim C4: whenever the qualifying-pixel count is below the minimum cluster
size, the Motion Estimator returns no motion regardless of the per-pixel
differences; in particular identical frames always yield no motion. -/
theorem detectMotion_gate :
    (∀ (w : ℕ) (frameData prevData : List Pixel),
      (scanPixels w (frameData.zip prevData) 0).2.2 < MIN_MOVEMENT_PIXELS →
      detectMotion w frameData prevData = none) ∧
    (∀ (w : ℕ) (frameData : List Pixel), detectMotion w frameData frameData = none) := by
  constructor
  · intro w frameData prevData hcount
    unfold detectMotion
    rw [if_neg]
    omega
  · intro w frameData
    unfold detectMotion
    rw [scanPixels_self]
    simp [MIN_MOVEMENT_PIXELS]

/-- Witness for C4: a concrete 2-pixel frame pair with huge differences but a
qualifying count (2) below the minimum cluster size yields no motion, and a
concrete frame compared against itself yields no motion. -/
theorem detectMotion_gate_witness :
    ((scanPixels 2 (([⟨255, 255, 255⟩, ⟨0, 0, 0⟩] : List Pixel).zip
        [⟨0, 0, 0⟩, ⟨255, 255, 255⟩]) 0).2.2 < MIN_MOVEMENT_PIXELS ∧
      detectMotion 2 [⟨255, 255, 255⟩, ⟨0, 0, 0⟩] [⟨0, 0, 0⟩, ⟨255, 255, 255⟩] = none) ∧
    detectMotion 2 [⟨7, 8, 9⟩] [⟨7, 8, 9⟩] = none :=
  ⟨⟨by decide, detectMotion_gate.1 2 _ _ (by decide)⟩, detectMotion_gate.2 2 _⟩

/-! ### Startup-sequence lemmas -/

/-- Claim C9: if the level-content fetch fails (the service call throws, or
the response text is empty/absent), the startup attempt ends in the Error
state with the content-unavailable message and the Playing state is never
entered. -/
theorem initializeGame_content_failure :
    ∀ (permissionGranted cameraOk : Bool)
      (serviceResult : Except String (Option String))
      (parse : String → Option LevelData),
      (serviceResult = Except.ok none ∨ ∃ e, serviceResult = Except.error e) →
      (initializeGame permissionGranted cameraOk serviceResult parse).errorMsg
          = some "AI Dojo disconnected." ∧
      (initializeGame permissionGranted cameraOk serviceResult parse).phases.getLast?
          = some GamePhase.error ∧
      GamePhase.playing ∉ (initializeGame permissionGranted cameraOk serviceResult parse).phases := by
  intro perm cam svc parse hfail
  have hgen : ∃ e, generateLevel svc parse = Except.error e := by
    rcases hfail with h | ⟨e, h⟩
    · exact ⟨_, by rw [h]; rfl⟩
    · exact ⟨e, by rw [h]; rfl⟩
  rcases hgen with ⟨e, hgen⟩
  unfold initializeGame
  rw [hgen]
  cases perm <;> cases cam <;> simp [startCamera]

/-- Witness for C9: a concrete attempt whose content service returns an absent
text ends in Error with the content-unavailable message and never enters
Playing. -/
theorem initializeGame_content_failure_witness :
    ((Except.ok none : Except String (Option String)) = Except.ok none ∨
      ∃ e, (Except.ok none : Except String (Option String)) = Except.error e) ∧
    ((initializeGame true true (Except.ok none) (fun _ => none)).errorMsg
        = some "AI Dojo disconnected." ∧
      (initializeGame true true (Except.ok none) (fun _ => none)).phases.getLast?
        = some GamePhase.error ∧
      GamePhase.playing ∉ (initializeGame true true (Except.ok none) (fun _ => none)).phases) :=
  ⟨Or.inl rfl, initializeGame_content_failure true true (Except.ok none) (fun _ => none) (Or.inl rfl)⟩

/-! ### Collision-pass lemmas -/

/-- The inner segment loop either leaves the object untouched with no event,
or fires exactly one event and sets `sliced` (the `break` after the first
qualifying segment). -/
theorem segmentLoop_cases (obj : GameObject) : ∀ (fuel : ℕ) (trail : List TrailPoint),
    segmentLoop obj fuel trail = (obj, 0) ∨
    segmentLoop obj fuel trail = ({ obj with sliced := true }, 1)
  | 0, t => Or.inl (by cases t with
      | nil => rfl
      | cons a t' => cases t' <;> rfl)
  | _ + 1, [] => Or.inl rfl
  | _ + 1, [_] => Or.inl rfl
  | fuel + 1, p1 :: p2 :: rest => by
      by_cases h : checkCollision p1 p2 obj
      · right
        simp [segmentLoop, h]
      · have := segmentLoop_cases obj fuel (p2 :: rest)
        simpa [segmentLoop, h] using this

/-- The guarded per-object collision pass fires at most one slice event, and
the updated `sliced` flag is at least the old one. -/
theorem collidePass_cases (trail : List TrailPoint) (obj : GameObject) :
    collidePass trail obj = (obj, 0) ∨
    collidePass trail obj = ({ obj with sliced := true }, 1) := by
  unfold collidePass
  by_cases hg : (!obj.sliced && decide (trail.length > 2)) = true
  · rw [if_pos hg]
    exact segmentLoop_cases obj 5 trail
  · rw [if_neg hg]
    exact Or.inl rfl

/-- An object already sliced is skipped by the collision pass. -/
theorem collidePass_skips_sliced (trail : List TrailPoint) (obj : GameObject)
    (h : obj.sliced = true) : collidePass trail obj = (obj, 0) := by
  simp [collidePass, h]

/-- The physics step never touches the `sliced` flag. -/
theorem physicsStep_sliced (obj : GameObject) : (physicsStep obj).sliced = obj.sliced := rfl

/-- A sliced object stays sliced and fires no event on any later tick. -/
theorem objectTick_sliced (trail : List TrailPoint) (obj : GameObject)
    (h : obj.sliced = true) :
    (objectTick trail obj).1.sliced = true ∧ (objectTick trail obj).2 = 0 := by
  unfold objectTick
  rw [collidePass_skips_sliced trail (physicsStep obj) (by rw [physicsStep_sliced]; exact h)]
  exact ⟨by rw [physicsStep_sliced]; exact h, rfl⟩

/-- The `sliced` flag is monotone across one tick: it never goes back to
`false`. -/
theorem objectTick_sliced_monotone (trail : List TrailPoint) (obj : GameObject)
    (h : obj.sliced = true) : (objectTick trail obj).1.sliced = true :=
  (objectTick_sliced trail obj h).1

/-- A tick that fires a slice event leaves the object sliced. -/
theorem objectTick_event_sliced (trail : List TrailPoint) (obj : GameObject)
    (h : (objectTick trail obj).2 ≠ 0) : (objectTick trail obj).1.sliced = true := by
  unfold objectTick at h ⊢
  rcases collidePass_cases trail (physicsStep obj) with hc | hc
  · rw [hc] at h
    exact absurd rfl h
  · rw [hc]

/-- A sliced object accumulates no events over any run of ticks. -/
theorem objectRun_sliced_zero : ∀ (trails : List (List TrailPoint)) (obj : GameObject),
    obj.sliced = true → (objectRun trails obj).2 = 0
  | [], _, _ => rfl
  | trail :: rest, obj, h => by
      have h1 := objectTick_sliced trail obj h
      simp only [objectRun]
      rw [h1.2, objectRun_sliced_zero rest _ h1.1]

/-- Each tick fires at most one slice event per object. -/
theorem objectTick_le_one (trail : List TrailPoint) (obj : GameObject) :
    (objectTick trail obj).2 ≤ 1 := by
  unfold objectTick
  rcases collidePass_cases trail (physicsStep obj) with hc | hc
  · simp [hc]
  · simp [hc]

/-- Claim C6: no object is ever sliced twice — the collision pass skips
already-sliced objects, the `sliced` flag only transitions false→true, each
tick fires at most one slice event per object (only the first qualifying
segment counts), and across any whole run of ticks an object produces at most
one slice event. -/
theorem object_sliced_once :
    (∀ (trail : List TrailPoint) (obj : GameObject), obj.sliced = true →
      collidePass trail obj = (obj, 0)) ∧
    (∀ (trail : List TrailPoint) (obj : GameObject), obj.sliced = true →
      (objectTick trail obj).1.sliced = true) ∧
    (∀ (trail : List TrailPoint) (obj : GameObject), (objectTick trail obj).2 ≤ 1) ∧
    (∀ (trails : List (List TrailPoint)) (obj : GameObject),
      (objectRun trails obj).2 ≤ 1) := by
  refine ⟨collidePass_skips_sliced, objectTick_sliced_monotone, objectTick_le_one, ?_⟩
  intro trails
  induction trails with
  | nil => intro obj; simp [objectRun]
  | cons trail rest ih =>
      intro obj
      simp only [objectRun]
      by_cases he : (objectTick trail obj).2 = 0
      · rw [he]
        simpa using ih (objectTick trail obj).1
      · have hs := objectTick_event_sliced trail obj he
        rw [objectRun_sliced_zero rest _ hs]
        have := objectTick_le_one trail obj
        omega

/-- Witness for C6: a concrete already-sliced object is skipped and stays
sliced over a concrete run. -/
theorem object_sliced_once_witness :
    objSliced.sliced = true ∧
    collidePass [segP1, segP2, segP1] objSliced = (objSliced, 0) ∧
    (objectTick [segP1, segP2, segP1] objSliced).1.sliced = true ∧
    (objectTick [segP1, segP2, segP1] objSliced).2 ≤ 1 ∧
    (objectRun [[segP1, segP2, segP1], [segP2, segP1, segP2]] objSliced).2 ≤ 1 :=
  ⟨rfl,
    object_sliced_once.1 [segP1, segP2, segP1] objSliced rfl,
    object_sliced_once.2.1 [segP1, segP2, segP1] objSliced rfl,
    object_sliced_once.2.2.1 [segP1, segP2, segP1] objSliced,
    object_sliced_once.2.2.2 [[segP1, segP2, segP1], [segP2, segP1, segP2]] objSliced⟩

/-! ### Trail Builder lemmas -/

/-- The per-index life bound that the decaying trail maintains: the point at
(0-based) newest-first index `i` has been decayed at least `i + 1` times. -/
def trailBound (l : List TrailPoint) : Prop :=
  ∀ (i : ℕ) (p : TrailPoint), l.get? i = some p → p.life ≤ 1 - (12/100) * ((i : ℚ) + 1)

/-- Filtering preserves any index-antitone pointwise property: a kept element
moves to an index no larger than its original one. -/
theorem filter_index_antitone {α : Type} (q : α → Bool) :
    ∀ (l : List α) (P : ℕ → α → Prop),
      (∀ (i j : ℕ) (a : α), i ≤ j → P j a → P i a) →
      (∀ (j : ℕ) (a : α), l.get? j = some a → P j a) →
      ∀ (i : ℕ) (a : α), (l.filter q).get? i = some a → P i a
  | [], _, _, _, _, _, hget => by simp at hget
  | a :: l, P, anti, h, i, b, hget => by
      by_cases hq : q a
      · rw [List.filter_cons_of_pos hq] at hget
        cases i with
        | zero =>
            have hb : b = a := by simpa using hget.symm
            exact hb ▸ h 0 a rfl
        | succ j =>
            have hj : (l.filter q).get? j = some b := by simpa using hget
            exact filter_index_antitone q l (fun k x => P (k + 1) x)
              (fun i j x hij hP => anti (i + 1) (j + 1) x (by omega) hP)
              (fun k x hk => h (k + 1) x (by simpa using hk))
              j b hj
      · rw [List.filter_cons_of_neg hq] at hget
        have hrec := filter_index_antitone q l (fun k x => P (k + 1) x)
          (fun i j x hij hP => anti (i + 1) (j + 1) x (by omega) hP)
          (fun k x hk => h (k + 1) x (by simpa using hk))
          i b hget
        exact anti i (i + 1) _ (by omega) hrec

/-- The life bounds are antitone in the index. -/
theorem lifeBound_antitone (i j : ℕ) (p : TrailPoint) (hij : i ≤ j)
    (h : p.life ≤ 1 - (12/100) * ((j : ℚ) + 1)) :
    p.life ≤ 1 - (12/100) * ((i : ℚ) + 1) := by
  have hq : ((i : ℚ)) ≤ (j : ℚ) := by exact_mod_cast hij
  nlinarith

/-- Pushing a fresh point with life at most 1 and then decaying-and-filtering
preserves the index bound. -/
theorem trailBound_tick (pt : TrailPoint) (hpt : pt.life ≤ 1) (l : List TrailPoint)
    (hl : trailBound l) : trailBound (trailDecay (pt :: l)) := by
  intro i p hip
  unfold trailDecay at hip
  refine filter_index_antitone _ _ _ lifeBound_antitone ?_ i p hip
  intro j b hj
  cases j with
  | zero =>
      have hb : b = { pt with life := pt.life - 12/100 } := by simpa using hj.symm
      subst hb
      norm_num
      linarith
  | succ k =>
      have hk : (l.map (fun p => { p with life := p.life - 12/100 })).get? k = some b := by
        simpa using hj
      rw [List.get?_map] at hk
      cases hl' : l.get? k with
      | none => rw [hl'] at hk; simp at hk
      | some c =>
          rw [hl'] at hk
          have hbc : b = { c with life := c.life - 12/100 } := by simpa using hk.symm
          have hc := hl k c hl'
          subst hbc
          show c.life - 12/100 ≤ 1 - 12/100 * ((((k + 1 : ℕ)) : ℚ) + 1)
          push_cast
          linarith

/-- After the decay-and-filter step every surviving point has positive
life. -/
theorem trailDecay_life_pos (l : List TrailPoint) (p : TrailPoint)
    (hp : p ∈ trailDecay l) : p.life > 0 := by
  unfold trailDecay at hp
  rw [List.mem_filter] at hp
  simpa using hp.2

/-- A trail satisfying the index bound with all-positive lives has at most 8
points: index 8 would force a life of at most `1 - 0.12 · 9 < 0`. -/
theorem length_le_of_trailBound (l : List TrailPoint) (hb : trailBound l)
    (hpos : ∀ p ∈ l, p.life > 0) : l.length ≤ 8 := by
  by_contra hlen
  have h8 : 8 < l.length := by omega
  obtain ⟨p, hp⟩ : ∃ p, l.get? 8 = some p := by
    rw [List.get?_eq_get h8]
    exact ⟨_, rfl⟩
  have hbound := hb 8 p hp
  have hmem : p ∈ l := List.get?_mem hp
  have hgt := hpos p hmem
  norm_num at hbound
  linarith

/-- One motion tick preserves the invariant. -/
theorem trailTick_some_invariant (mx my : ℚ) (cursor : ℚ × ℚ) (trail : List TrailPoint)
    (hb : trailBound trail) :
    trailBound (trailTick (some (mx, my)) cursor trail).2 ∧
    ∀ p ∈ (trailTick (some (mx, my)) cursor trail).2, p.life > 0 := by
  unfold trailTick
  exact ⟨trailBound_tick _ le_rfl _ hb, fun p hp => trailDecay_life_pos _ p hp⟩

/-- Invariant of the continuous-motion run: the index bound holds and every
point has positive life. -/
theorem trailRun_invariant (pos : ℕ → ℚ × ℚ) : ∀ (n : ℕ),
    trailBound (trailRun pos n).2 ∧ ∀ p ∈ (trailRun pos n).2, p.life > 0
  | 0 => ⟨fun i p hip => by simp [trailRun] at hip, fun p hp => by simp [trailRun] at hp⟩
  | n + 1 => by
      have ih := trailRun_invariant pos n
      have key : ∀ (s : ℚ × ℚ),
          trailBound (trailTick (some s) (trailRun pos n).1 (trailRun pos n).2).2 ∧
          ∀ p ∈ (trailTick (some s) (trailRun pos n).1 (trailRun pos n).2).2, p.life > 0 := by
        intro s
        cases s with
        | mk mx my => exact trailTick_some_invariant mx my _ _ ih.1
      exact key (pos n)

/-- Claim C5: after every decay-and-filter step the Trail Builder holds only
points with strictly positive life, and under continuous motion (one point of
life 1 pushed per tick, 0.12 decay per tick, starting from the empty trail)
the trail never exceeds ⌈1/0.12⌉ = 9 points. -/
theorem trail_life_pos_and_bounded :
    (∀ (l : List TrailPoint) (p : TrailPoint), p ∈ trailDecay l → p.life > 0) ∧
    (∀ (pos : ℕ → ℚ × ℚ) (n : ℕ), ((trailRun pos n).2).length ≤ 9) := by
  refine ⟨trailDecay_life_pos, fun pos n => ?_⟩
  have h := trailRun_invariant pos n
  have := length_le_of_trailBound _ h.1 h.2
  omega

/-- Witness for C5: the surviving point of a concrete decay step has positive
life, and a concrete 12-tick continuous-motion run stays within 9 points. -/
theorem trail_life_pos_and_bounded_witness :
    ({ x := 5, y := 6, life := 22/25 } : TrailPoint).life > 0 ∧
    ((trailRun (fun _ => (5, 6)) 12).2).length ≤ 9 :=
  ⟨trail_life_pos_and_bounded.1 [{ x := 5, y := 6, life := 1 }] _
      (by norm_num [trailDecay, List.mem_filter]),
    trail_life_pos_and_bounded.2 (fun _ => (5, 6)) 12⟩

/-! ### Collision-test algebra -/

/-- A nonzero squared segment length forces the corresponding difference to be
nonzero in at least one coordinate, and conversely. -/
theorem lenSq_ne_zero (p1 p2 : TrailPoint) (h : p1.x ≠ p2.x ∨ p1.y ≠ p2.y) :
    (p2.x - p1.x) * (p2.x - p1.x) + (p2.y - p1.y) * (p2.y - p1.y) ≠ 0 := by
  rcases h with hx | hy
  · exact (add_pos_of_pos_of_nonneg (mul_self_pos.mpr (sub_ne_zero.mpr (Ne.symm hx)))
      (mul_self_nonneg _)).ne'
  · exact (add_pos_of_nonneg_of_pos (mul_self_nonneg _)
      (mul_self_pos.mpr (sub_ne_zero.mpr (Ne.symm hy)))).ne'

/-- Clamping to [0,1] commutes with the reflection `t ↦ 1 - t`. -/
theorem clamp_one_sub (t : ℚ) : max 0 (min 1 (1 - t)) = 1 - max 0 (min 1 t) := by
  rcases le_total t 0 with h | h
  · rw [min_eq_right (by linarith : t ≤ (1:ℚ)), max_eq_left (by linarith : t ≤ (0:ℚ)),
      min_eq_left (by linarith : (1:ℚ) ≤ 1 - t), max_eq_right (by norm_num : (0:ℚ) ≤ 1)]
    ring
  · rcases le_total t 1 with h' | h'
    · rw [min_eq_right h', max_eq_right h,
        min_eq_right (by linarith : 1 - t ≤ (1:ℚ)), max_eq_right (by linarith : (0:ℚ) ≤ 1 - t)]
    · rw [min_eq_left h', max_eq_right (by norm_num : (0:ℚ) ≤ 1),
        min_eq_right (by linarith : 1 - t ≤ (1:ℚ)), max_eq_left (by linarith : 1 - t ≤ (0:ℚ))]
      ring

/-- The squared distance to the clamped closest point does not depend on the
orientation of the segment. -/
theorem closestDist_symm (x1 y1 x2 y2 ox oy : ℚ)
    (hL : (x2 - x1) * (x2 - x1) + (y2 - y1) * (y2 - y1) ≠ 0) :
    (ox - (x1 + max 0 (min 1 (((ox - x1) * (x2 - x1) + (oy - y1) * (y2 - y1)) /
        ((x2 - x1) * (x2 - x1) + (y2 - y1) * (y2 - y1)))) * (x2 - x1))) *
      (ox - (x1 + max 0 (min 1 (((ox - x1) * (x2 - x1) + (oy - y1) * (y2 - y1)) /
        ((x2 - x1) * (x2 - x1) + (y2 - y1) * (y2 - y1)))) * (x2 - x1))) +
    (oy - (y1 + max 0 (min 1 (((ox - x1) * (x2 - x1) + (oy - y1) * (y2 - y1)) /
        ((x2 - x1) * (x2 - x1) + (y2 - y1) * (y2 - y1)))) * (y2 - y1))) *
      (oy - (y1 + max 0 (min 1 (((ox - x1) * (x2 - x1) + (oy - y1) * (y2 - y1)) /
        ((x2 - x1) * (x2 - x1) + (y2 - y1) * (y2 - y1)))) * (y2 - y1)))
    =
    (ox - (x2 + max 0 (min 1 (((ox - x2) * (x1 - x2) + (oy - y2) * (y1 - y2)) /
        ((x1 - x2) * (x1 - x2) + (y1 - y2) * (y1 - y2)))) * (x1 - x2))) *
      (ox - (x2 + max 0 (min 1 (((ox - x2) * (x1 - x2) + (oy - y2) * (y1 - y2)) /
        ((x1 - x2) * (x1 - x2) + (y1 - y2) * (y1 - y2)))) * (x1 - x2))) +
    (oy - (y2 + max 0 (min 1 (((ox - x2) * (x1 - x2) + (oy - y2) * (y1 - y2)) /
        ((x1 - x2) * (x1 - x2) + (y1 - y2) * (y1 - y2)))) * (y1 - y2))) *
      (oy - (y2 + max 0 (min 1 (((ox - x2) * (x1 - x2) + (oy - y2) * (y1 - y2)) /
        ((x1 - x2) * (x1 - x2) + (y1 - y2) * (y1 - y2)))) * (y1 - y2))) := by
  have hL' : (x1 - x2) * (x1 - x2) + (y1 - y2) * (y1 - y2) ≠ 0 := by
    intro hc
    apply hL
    nlinarith [hc]
  have harg : ((ox - x2) * (x1 - x2) + (oy - y2) * (y1 - y2)) /
      ((x1 - x2) * (x1 - x2) + (y1 - y2) * (y1 - y2))
      = 1 - ((ox - x1) * (x2 - x1) + (oy - y1) * (y2 - y1)) /
        ((x2 - x1) * (x2 - x1) + (y2 - y1) * (y2 - y1)) := by
    field_simp
    ring
  rw [harg, clamp_one_sub]
  ring

/-- Claim C7: the collision test is symmetric in the segment's endpoints. -/
theorem checkCollision_symm :
    ∀ (p1 p2 : TrailPoint) (obj : GameObject),
      checkCollision p1 p2 obj = checkCollision p2 p1 obj := by
  intro p1 p2 obj
  have hLsymm : (p1.x - p2.x) * (p1.x - p2.x) + (p1.y - p2.y) * (p1.y - p2.y)
      = (p2.x - p1.x) * (p2.x - p1.x) + (p2.y - p1.y) * (p2.y - p1.y) := by ring
  by_cases hL : (p2.x - p1.x) * (p2.x - p1.x) + (p2.y - p1.y) * (p2.y - p1.y) = 0
  · have hL2 : (p1.x - p2.x) * (p1.x - p2.x) + (p1.y - p2.y) * (p1.y - p2.y) = 0 := by
      rw [hLsymm]; exact hL
    simp only [checkCollision, jn, jdiv, if_pos hL, if_pos hL2, jmin, jmax, jadd, jmul, jsub, jlt]
  · have hL2 : (p1.x - p2.x) * (p1.x - p2.x) + (p1.y - p2.y) * (p1.y - p2.y) ≠ 0 := by
      rw [hLsymm]; exact hL
    simp only [checkCollision, jn, jdiv, if_neg hL, if_neg hL2, jmin, jmax, jadd, jmul, jsub, jlt]
    rw [decide_eq_decide]
    rw [closestDist_symm p1.x p1.y p2.x p2.y obj.x obj.y hL]

/-- Claim C1: for distinct endpoints the collision test reports a hit exactly
when the squared distance from the object's centre to the closest point of the
finite segment (clamped projection) is strictly below the squared radius; in
particular the object at (100,100) with radius 50 is hit by the segment from
(0,100) to (200,100), and the object at (100,300) is not. -/
theorem checkCollision_iff_spec :
    (∀ (p1 p2 : TrailPoint) (obj : GameObject), (p1.x ≠ p2.x ∨ p1.y ≠ p2.y) →
      (checkCollision p1 p2 obj = true ↔ specSegmentHit p1 p2 obj)) ∧
    checkCollision segP1 segP2 objHit = true ∧
    checkCollision segP1 segP2 objMiss = false := by
  refine ⟨?_, ?_, ?_⟩
  · intro p1 p2 obj h
    have hL := lenSq_ne_zero p1 p2 h
    simp only [checkCollision, specSegmentHit, jn, jdiv, if_neg hL, jmin, jmax, jadd, jmul,
      jsub, jlt, decide_eq_true_eq, pow_two]
  · norm_num [checkCollision, segP1, segP2, objHit, jn, jdiv, jmin, jmax, jadd, jmul, jsub, jlt]
  · norm_num [checkCollision, segP1, segP2, objMiss, objHit, jn, jdiv, jmin, jmax, jadd, jmul,
      jsub, jlt]

/-- Witness for C1: the equivalence instantiated at the horizontal scenario
segment and the object it slices. -/
theorem checkCollision_iff_spec_witness :
    (segP1.x ≠ segP2.x ∨ segP1.y ≠ segP2.y) ∧
    (checkCollision segP1 segP2 objHit = true ↔ specSegmentHit segP1 segP2 objHit) :=
  ⟨Or.inl (by norm_num [segP1, segP2]),
    checkCollision_iff_spec.1 segP1 segP2 objHit (Or.inl (by norm_num [segP1, segP2]))⟩

end Blade
